import Mathlib

/-!
Shallow embedding of the AVTO LAIF vehicle-classifieds backend
(FastAPI + SQLAlchemy) and proofs about its operations.

Conventions of the embedding:
* database rows become Lean structures, tables become lists of rows;
* an HTTP handler or service method becomes a pure function from the
  relevant state to `Except ApiError` of the new state / response;
* timestamps are natural numbers counted in days (the only durations the
  verified code adds are whole days: 30-day ad lifetime, tariff
  `duration_days`, refresh-token lifetime in days);
* SQL `NULL` becomes `Option`; Python exceptions raised by a handler
  become `Except.error`;
* `Decimal` money amounts become `Int` (exact, no rounding in the code).
-/

set_option maxRecDepth 10000

/-- Application error hierarchy (`app/core/exceptions.py`), collapsed to the
constructors the verified handlers can raise. -/
inductive ApiError
  | notFound
  | authorization
  | authentication
  | validation
  | conflict
  | tokenExpired
  | invalidToken
  | sessionRevoked
deriving DecidableEq, Repr

/-- `AdStatus` enum (`app/models/ad.py`). -/
inductive AdStatus
  | draft
  | pending
  | active
  | rejected
  | archived
  | sold
  | expired
deriving DecidableEq, Repr

/-- `UserRole` enum (`app/models/user.py`). -/
inductive UserRole
  | user
  | dealer
  | moderator
  | admin
deriving DecidableEq, Repr

/-- The columns of `users` used by the verified handlers
(`app/models/user.py`). -/
structure User where
  id : Nat
  role : UserRole
  is_active : Bool
  is_blocked : Bool
  deleted_at : Option Nat
deriving DecidableEq, Repr

/-- `User.is_admin` property: `role == UserRole.ADMIN`. -/
def User.is_admin (u : User) : Bool :=
  u.role == UserRole.admin

/-- `User.is_moderator` property: `role in (MODERATOR, ADMIN)`. -/
def User.is_moderator (u : User) : Bool :=
  u.role == UserRole.moderator || u.role == UserRole.admin

/-- The columns of `ads` used by the verified handlers
(`app/models/ad.py`).  Note: the table has `featured_until` and
`top_until` columns but **no** `urgent_until` column. -/
structure Ad where
  id : Nat
  user_id : Nat
  status : AdStatus
  title : String
  description : String
  price : Int
  vin : Option String
  mileage : Nat
  views_count : Nat
  favorites_count : Nat
  is_featured : Bool
  is_top : Bool
  is_urgent : Bool
  featured_until : Option Nat
  top_until : Option Nat
  published_at : Option Nat
  expires_at : Option Nat
  rejection_reason : Option String
  moderated_at : Option Nat
  moderated_by : Option Nat
  deleted_at : Option Nat
deriving DecidableEq, Repr

/-- `AdUpdate` request schema (`app/schemas/ad.py`), restricted to the
fields the moderation-reset rule inspects plus `mileage` as a
representative field outside that set.  A `none` field is absent from
`model_dump(exclude_unset=True)`. -/
structure AdUpdate where
  title : Option String := none
  description : Option String := none
  price : Option Int := none
  vin : Option String := none
  mileage : Option Nat := none
deriving DecidableEq, Repr

/-- The `setattr` loop of `update_ad`: every field present in the update
dict overwrites the ad's column. -/
def applyAdUpdate (ad : Ad) (u : AdUpdate) : Ad :=
  { ad with
    title := u.title.getD ad.title
    description := u.description.getD ad.description
    price := u.price.getD ad.price
    vin := match u.vin with | some v => some v | none => ad.vin
    mileage := u.mileage.getD ad.mileage }

/-- `"field" in update_dict` test for the four fields of the
moderation-reset rule in `update_ad` (`app/api/v1/ads.py`). -/
def touchesModeratedFields (u : AdUpdate) : Bool :=
  u.title.isSome || u.description.isSome || u.price.isSome || u.vin.isSome

/-- `PATCH /ads/{ad_id}` handler `update_ad` (`app/api/v1/ads.py`),
acting on the ad fetched by `get_ad_with_relations`: owner-or-admin
check, apply the update dict, then reset an `active` ad to `pending`
when the update dict touches title/description/price/vin. -/
def update_ad (ad : Ad) (current_user : User) (u : AdUpdate) : Except ApiError Ad :=
  if ad.user_id != current_user.id && !current_user.is_admin then
    .error .authorization
  else
    let ad1 := applyAdUpdate ad u
    if ad1.status == AdStatus.active && touchesModeratedFields u then
      .ok { ad1 with status := AdStatus.pending }
    else
      .ok ad1

/-- `applyAdUpdate` never changes the status column (status is not an
`AdUpdate` field). -/
theorem applyAdUpdate_status (ad : Ad) (u : AdUpdate) :
    (applyAdUpdate ad u).status = ad.status := rfl

/-- Claim C2: updating an `active` ad through `update_ad` resets its
status to `pending` exactly when the update touches one of title,
description, price or VIN; an update touching none of them (for example
only mileage) leaves the status `active`. -/
theorem C2_update_active_ad_reset (ad : Ad) (current_user : User) (u : AdUpdate)
    (ad2 : Ad) (hactive : ad.status = AdStatus.active)
    (hok : update_ad ad current_user u = .ok ad2) :
    (touchesModeratedFields u = true → ad2.status = AdStatus.pending) ∧
    (touchesModeratedFields u = false → ad2.status = AdStatus.active) := by
  unfold update_ad at hok
  by_cases hauth : (ad.user_id != current_user.id && !current_user.is_admin) = true
  · simp [hauth] at hok
  · simp [hauth] at hok
    constructor
    · intro ht
      simp [applyAdUpdate_status, hactive, ht] at hok
      simp [← hok]
    · intro ht
      simp [applyAdUpdate_status, hactive, ht] at hok
      rw [← hok, applyAdUpdate_status, hactive]

/-- Example ad used to instantiate theorems about ad handlers. -/
def exAd : Ad where
  id := 1
  user_id := 7
  status := AdStatus.active
  title := "Toyota Corolla"
  description := "well kept"
  price := 10000
  vin := none
  mileage := 90000
  views_count := 0
  favorites_count := 0
  is_featured := false
  is_top := false
  is_urgent := false
  featured_until := none
  top_until := none
  published_at := some 0
  expires_at := some 30
  rejection_reason := none
  moderated_at := none
  moderated_by := none
  deleted_at := none

/-- Example owner of `exAd`. -/
def exOwner : User where
  id := 7
  role := UserRole.user
  is_active := true
  is_blocked := false
  deleted_at := none

/-- The ad produced by the witness update of C2. -/
def exAdUpdated : Ad :=
  { applyAdUpdate exAd { price := some 9000 } with status := AdStatus.pending }

/-- Witness for C2: a price edit of an active ad by its owner lands in
`pending`, at a concrete input. -/
theorem C2_update_active_ad_reset_witness : exAdUpdated.status = AdStatus.pending :=
  (C2_update_active_ad_reset exAd exOwner { price := some 9000 } exAdUpdated
    rfl rfl).1 rfl

/-- `AdModerationAction` request schema (`app/schemas/ad.py`): a free-form
action string (the handler recognises "approve" and "reject") and an
optional reason. -/
structure AdModerationAction where
  action : String
  reason : Option String
deriving DecidableEq, Repr

/-- `POST /ads/{ad_id}/moderate` handler `moderate_ad`
(`app/api/v1/ads.py`), acting on the fetched ad: `require_moderator`
guard, pending-only check, approve/reject branches, moderation stamp. -/
def moderate_ad (ad : Ad) (moderator : User) (a : AdModerationAction) (now : Nat) :
    Except ApiError Ad :=
  if !moderator.is_moderator then
    .error .authorization
  else if ad.status != AdStatus.pending then
    .error .validation
  else
    let ad1 :=
      if a.action == "approve" then
        { ad with
          status := AdStatus.active
          published_at := some now
          expires_at := some (now + 30)
          rejection_reason := none }
      else if a.action == "reject" then
        { ad with
          status := AdStatus.rejected
          rejection_reason := a.reason }
      else ad
    .ok { ad1 with moderated_at := some now, moderated_by := some moderator.id }

/-- Claim C8: moderating a non-`pending` ad fails with a validation error
(the error path returns no updated ad); approving a pending ad makes it
`active` with `published_at = now`, `expires_at = now + 30` days and a
cleared rejection reason; rejecting makes it `rejected` with the given
reason; both actions stamp `moderated_at`/`moderated_by`. -/
theorem C8_moderate_ad (ad : Ad) (moderator : User) (a : AdModerationAction) (now : Nat)
    (hmod : moderator.is_moderator = true) :
    (ad.status ≠ AdStatus.pending →
      moderate_ad ad moderator a now = .error .validation) ∧
    (ad.status = AdStatus.pending → a.action = "approve" →
      moderate_ad ad moderator a now = .ok
        { ad with
          status := AdStatus.active
          published_at := some now
          expires_at := some (now + 30)
          rejection_reason := none
          moderated_at := some now
          moderated_by := some moderator.id }) ∧
    (ad.status = AdStatus.pending → a.action = "reject" →
      moderate_ad ad moderator a now = .ok
        { ad with
          status := AdStatus.rejected
          rejection_reason := a.reason
          moderated_at := some now
          moderated_by := some moderator.id }) := by
  refine ⟨?_, ?_, ?_⟩
  · intro hne
    simp [moderate_ad, hmod, hne]
  · intro hp ha
    simp [moderate_ad, hmod, hp, ha]
  · intro hp ha
    simp [moderate_ad, hmod, hp, ha]

/-- Example moderator. -/
def exModerator : User where
  id := 99
  role := UserRole.moderator
  is_active := true
  is_blocked := false
  deleted_at := none

/-- Witness for C8: approving a concrete pending ad at day 5 yields the
expected active ad. -/
theorem C8_moderate_ad_witness :
    moderate_ad { exAd with status := AdStatus.pending } exModerator
      { action := "approve", reason := none } 5 = .ok
      { exAd with
        status := AdStatus.active
        published_at := some 5
        expires_at := some 35
        rejection_reason := none
        moderated_at := some 5
        moderated_by := some 99 } :=
  (C8_moderate_ad { exAd with status := AdStatus.pending } exModerator
    { action := "approve", reason := none } 5 rfl).2.1 rfl rfl

/-- The columns of `dialogs` used by the verified handlers
(`app/models/chat.py`). -/
structure Dialog where
  id : Nat
  ad_id : Nat
  seller_id : Nat
  buyer_id : Nat
  seller_unread_count : Nat
  buyer_unread_count : Nat
  is_seller_deleted : Bool
  is_buyer_deleted : Bool
  seller_blocked_buyer : Bool
  buyer_blocked_seller : Bool
  last_message_id : Option Nat
  last_message_at : Option Nat
  last_message_text : Option String
deriving DecidableEq, Repr

/-- `Dialog.is_participant`: `user_id in (seller_id, buyer_id)`. -/
def Dialog.is_participant (d : Dialog) (user_id : Nat) : Bool :=
  user_id == d.seller_id || user_id == d.buyer_id

/-- `Dialog.is_blocked`: blocked by either party. -/
def Dialog.is_blocked (d : Dialog) : Bool :=
  d.seller_blocked_buyer || d.buyer_blocked_seller

/-- `Dialog.get_other_user_id`. -/
def Dialog.get_other_user_id (d : Dialog) (user_id : Nat) : Nat :=
  if user_id == d.seller_id then d.buyer_id else d.seller_id

/-- `Dialog.increment_unread_count`. -/
def Dialog.increment_unread_count (d : Dialog) (for_user_id : Nat) : Dialog :=
  if for_user_id == d.seller_id then
    { d with seller_unread_count := d.seller_unread_count + 1 }
  else
    { d with buyer_unread_count := d.buyer_unread_count + 1 }

/-- `DELETE /chat/dialogs/{dialog_id}` handler `delete_dialog`
(`app/api/v1/chat.py`), acting on the fetched dialog: soft-delete for
the calling side only. -/
def delete_dialog (d : Dialog) (current_user_id : Nat) : Except ApiError Dialog :=
  if !d.is_participant current_user_id then
    .error .authorization
  else if current_user_id == d.seller_id then
    .ok { d with is_seller_deleted := true }
  else
    .ok { d with is_buyer_deleted := true }

/-- `MessageCreate` request schema (`app/schemas/chat.py`): an optional
text (empty string and `None` are both falsy in the handler). -/
structure MessageCreate where
  text : Option String
deriving DecidableEq, Repr

/-- `POST /chat/dialogs/{dialog_id}/messages` handler `send_message`
(`app/api/v1/chat.py`), acting on the fetched dialog: participant and
blocked checks, update of the last-message columns, unread increment for
the other side, then the "Restore dialog if deleted" block that clears
the *sender's* deleted flag. -/
def send_message (d : Dialog) (current_user_id : Nat) (m : MessageCreate)
    (message_id now : Nat) : Except ApiError Dialog :=
  if !d.is_participant current_user_id then
    .error .authorization
  else if d.is_blocked then
    .error .validation
  else
    let d1 := { d with
      last_message_id := some message_id
      last_message_at := some now
      last_message_text :=
        match m.text with
        | some t => if t == "" then some "[Attachment]" else some (t.take 255)
        | none => some "[Attachment]" }
    let d2 := d1.increment_unread_count (d1.get_other_user_id current_user_id)
    let d3 :=
      if current_user_id == d2.seller_id then { d2 with is_seller_deleted := false }
      else { d2 with is_buyer_deleted := false }
    .ok d3

/-- Example dialog between seller 1 and buyer 2 used for claim C5. -/
def exDialog : Dialog where
  id := 1
  ad_id := 1
  seller_id := 1
  buyer_id := 2
  seller_unread_count := 0
  buyer_unread_count := 0
  is_seller_deleted := false
  is_buyer_deleted := false
  seller_blocked_buyer := false
  buyer_blocked_seller := false
  last_message_id := none
  last_message_at := none
  last_message_text := none

/-- `exDialog` after the buyer (user 2) soft-deletes it. -/
def exDialogBuyerDeleted : Dialog := { exDialog with is_buyer_deleted := true }

/-- `exDialogBuyerDeleted` after the seller (user 1) sends the message
"hi" into it. -/
def exDialogAfterSellerMsg : Dialog :=
  { exDialogBuyerDeleted with
    seller_unread_count := 0
    buyer_unread_count := 1
    is_seller_deleted := false
    last_message_id := some 10
    last_message_at := some 3
    last_message_text := some "hi" }

/-- Counterexample for claim C5: the buyer soft-deletes the dialog, the
seller then sends a message, yet the buyer's deleted flag is still set —
a new message from the other participant does not restore the dialog for
the side that deleted it. -/
theorem C5_counterexample :
    delete_dialog exDialog 2 = .ok exDialogBuyerDeleted ∧
    send_message exDialogBuyerDeleted 1 { text := some "hi" } 10 3 =
      .ok exDialogAfterSellerMsg ∧
    exDialogAfterSellerMsg.is_buyer_deleted = true := by
  refine ⟨rfl, ?_, rfl⟩
  rfl

/-- Claim C5 (amended): a successful `send_message` clears the deleted
flag of the *sender's own* side only; the other side's deleted flag is
unchanged, so a dialog soft-deleted by one participant is restored only
when that same participant sends the next message. -/
theorem C5_send_message_restores_sender_side (d d2 : Dialog) (uid : Nat)
    (m : MessageCreate) (message_id now : Nat)
    (hok : send_message d uid m message_id now = .ok d2) :
    (uid = d.seller_id →
      d2.is_seller_deleted = false ∧ d2.is_buyer_deleted = d.is_buyer_deleted) ∧
    (uid ≠ d.seller_id →
      d2.is_buyer_deleted = false ∧ d2.is_seller_deleted = d.is_seller_deleted) := by
  unfold send_message at hok
  by_cases hpart : (!d.is_participant uid) = true
  · simp [hpart] at hok
  · by_cases hblk : d.is_blocked = true
    · simp [hpart, hblk] at hok
    · simp [hpart, hblk] at hok
      constructor
      · intro hs
        simp [← hok, hs, Dialog.increment_unread_count]
        split <;> simp
      · intro hs
        simp [← hok, hs, Dialog.increment_unread_count]
        split <;> simp

/-- Witness for the amended C5 theorem: the seller's send in the
counterexample scenario leaves the buyer's deleted flag untouched. -/
theorem C5_send_message_restores_sender_side_witness :
    exDialogAfterSellerMsg.is_seller_deleted = false ∧
    exDialogAfterSellerMsg.is_buyer_deleted = exDialogBuyerDeleted.is_buyer_deleted :=
  (C5_send_message_restores_sender_side exDialogBuyerDeleted exDialogAfterSellerMsg 1
    { text := some "hi" } 10 3 rfl).1 rfl

/-- State touched by the favorites/comparison handlers
(`app/api/v1/favorites.py`): the `ads` table plus the `favorites` and
`comparisons` association tables, each row a `(user_id, ad_id)` pair. -/
structure FavState where
  ads : List Ad
  favorites : List (Nat × Nat)
  comparisons : List (Nat × Nat)
deriving Repr

/-- Row membership test (`select(...).where(user_id == ..., ad_id == ...)`
followed by `scalar_one_or_none`). -/
def hasRow (rows : List (Nat × Nat)) (uid ad_id : Nat) : Bool :=
  rows.any (fun p => p.1 == uid && p.2 == ad_id)

/-- `select(Ad).where(Ad.id == ad_id, Ad.deleted_at.is_(None))`. -/
def findAliveAd (ads : List Ad) (ad_id : Nat) : Option Ad :=
  ads.find? (fun a => a.id == ad_id && a.deleted_at == none)

/-- Number of favorite rows of one `(user, ad)` pair. -/
def favRowCount (st : FavState) (uid ad_id : Nat) : Nat :=
  st.favorites.countP (fun p => p.1 == uid && p.2 == ad_id)

/-- `favorites_count` of the ad a handler fetches by bare id
(`select(Ad).where(Ad.id == ad_id)`); `0` when no such row. -/
def adFavCount (st : FavState) (ad_id : Nat) : Nat :=
  match st.ads.find? (fun a => a.id == ad_id) with
  | some a => a.favorites_count
  | none => 0

/-- `POST /favorites/{ad_id}` handler `add_to_favorites`
(`app/api/v1/favorites.py`): alive-ad check, idempotence check, insert
plus counter increment. -/
def add_to_favorites (st : FavState) (uid ad_id : Nat) :
    Except ApiError (FavState × String) :=
  match findAliveAd st.ads ad_id with
  | none => .error .notFound
  | some _ =>
    if hasRow st.favorites uid ad_id then
      .ok (st, "Ad already in favorites")
    else
      .ok ({ st with
        favorites := st.favorites ++ [(uid, ad_id)]
        ads := st.ads.map (fun a =>
          if a.id == ad_id then { a with favorites_count := a.favorites_count + 1 }
          else a) },
        "Added to favorites")

/-- `DELETE /favorites/{ad_id}` handler `remove_from_favorites`
(`app/api/v1/favorites.py`): idempotence check, row deletion, counter
decrement guarded by `favorites_count > 0` (the ad is re-fetched by bare
id, without the deleted filter). -/
def remove_from_favorites (st : FavState) (uid ad_id : Nat) :
    Except ApiError (FavState × String) :=
  if !hasRow st.favorites uid ad_id then
    .ok (st, "Ad not in favorites")
  else
    .ok ({ st with
      favorites := st.favorites.eraseP (fun p => p.1 == uid && p.2 == ad_id)
      ads := st.ads.map (fun a =>
        if a.id == ad_id && decide (0 < a.favorites_count) then
          { a with favorites_count := a.favorites_count - 1 }
        else a) },
      "Removed from favorites")

/-- Number of comparison rows owned by one user
(`select(func.count()).select_from(... Comparison.user_id == uid ...)`). -/
def comparisonCount (st : FavState) (uid : Nat) : Nat :=
  st.comparisons.countP (fun p => p.1 == uid)

/-- `POST /favorites/comparison/{ad_id}` handler `add_to_comparison`
(`app/api/v1/favorites.py`): alive-ad check, idempotence check, 10-item
cap with a conflict error, insert. -/
def add_to_comparison (st : FavState) (uid ad_id : Nat) :
    Except ApiError (FavState × String) :=
  match findAliveAd st.ads ad_id with
  | none => .error .notFound
  | some _ =>
    if hasRow st.comparisons uid ad_id then
      .ok (st, "Ad already in comparison")
    else if decide (10 ≤ comparisonCount st uid) then
      .error .conflict
    else
      .ok ({ st with comparisons := st.comparisons ++ [(uid, ad_id)] },
        "Added to comparison")

/-- `DELETE /favorites/comparison/{ad_id}` handler
`remove_from_comparison` (`app/api/v1/favorites.py`). -/
def remove_from_comparison (st : FavState) (uid ad_id : Nat) :
    Except ApiError (FavState × String) :=
  if !hasRow st.comparisons uid ad_id then
    .ok (st, "Ad not in comparison")
  else
    .ok ({ st with
      comparisons := st.comparisons.eraseP (fun p => p.1 == uid && p.2 == ad_id) },
      "Removed from comparison")

/-- `DELETE /favorites/comparison` handler `clear_comparison`
(`app/api/v1/favorites.py`): `delete(Comparison).where(user_id == uid)`. -/
def clear_comparison (st : FavState) (uid : Nat) : FavState × String :=
  ({ st with comparisons := st.comparisons.filter (fun p => !(p.1 == uid)) },
    "Comparison list cleared")

/-- A row update that does not change the columns a `find?` predicate
inspects commutes with `find?`: the ORM `UPDATE` of one column leaves a
lookup by other columns at the same row. -/
theorem find?_map_comm {α : Type} (g : α → α) (p : α → Bool)
    (hg : ∀ a, p (g a) = p a) (l : List α) :
    (l.map g).find? p = (l.find? p).map g := by
  induction l with
  | nil => rfl
  | cons a t ih =>
    cases hpa : p a
    · rw [List.map_cons, List.find?_cons_of_neg _ (by simp [hg, hpa]),
        List.find?_cons_of_neg _ (by simp [hpa]), ih]
    · rw [List.map_cons, List.find?_cons_of_pos _ (by simp [hg, hpa]),
        List.find?_cons_of_pos _ (by simp [hpa])]
      rfl

/-- Claim C6: the per-user comparison list is capped at 10.  When a user
already holds 10 rows, adding a new ad is rejected with a conflict error;
a successful add keeps the count at most 10; removing and clearing only
shrink the list. -/
theorem C6_comparison_cap (st : FavState) (uid ad_id : Nat)
    (hbound : comparisonCount st uid ≤ 10) :
    (comparisonCount st uid = 10 → hasRow st.comparisons uid ad_id = false →
      findAliveAd st.ads ad_id ≠ none →
      add_to_comparison st uid ad_id = .error .conflict) ∧
    (∀ st2 msg, add_to_comparison st uid ad_id = .ok (st2, msg) →
      comparisonCount st2 uid ≤ 10) ∧
    (∀ st2 msg, remove_from_comparison st uid ad_id = .ok (st2, msg) →
      comparisonCount st2 uid ≤ 10) ∧
    comparisonCount (clear_comparison st uid).1 uid = 0 := by
  refine ⟨?_, ?_, ?_, ?_⟩
  · intro h10 hrow hfind
    unfold add_to_comparison
    cases hf : findAliveAd st.ads ad_id with
    | none => exact absurd hf hfind
    | some a => simp [hf, hrow, h10]
  · intro st2 msg h
    unfold add_to_comparison at h
    cases hf : findAliveAd st.ads ad_id with
    | none => simp [hf] at h
    | some a =>
      rw [hf] at h
      by_cases hrow : hasRow st.comparisons uid ad_id = true
      · simp [hrow] at h
        rw [← h.1]
        exact hbound
      · by_cases h10 : (10 ≤ comparisonCount st uid)
        · simp [hrow, h10] at h
        · simp [hrow, h10] at h
          have hlt : comparisonCount st uid < 10 := Nat.lt_of_not_le h10
          rw [← h.1]
          unfold comparisonCount at hlt ⊢
          rw [List.countP_append]
          have : List.countP (fun p => p.1 == uid) [(uid, ad_id)] ≤ 1 := by
            simp [List.countP_cons]
          omega
  · intro st2 msg h
    unfold remove_from_comparison at h
    by_cases hrow : hasRow st.comparisons uid ad_id = true
    · simp [hrow] at h
      rw [← h.1]
      unfold comparisonCount
      calc (st.comparisons.eraseP (fun p => p.1 == uid && p.2 == ad_id)).countP
            (fun p => p.1 == uid)
        ≤ st.comparisons.countP (fun p => p.1 == uid) :=
          (List.eraseP_sublist st.comparisons).countP_le _
        _ ≤ 10 := hbound
    · simp [hrow] at h
      rw [← h.1]
      exact hbound
  · unfold clear_comparison comparisonCount
    rw [List.countP_eq_zero]
    intro a ha
    have := (List.mem_filter.mp ha).2
    simp at this
    simp [this]

/-- A user with ten comparison rows, about to add an eleventh ad. -/
def exCompFull : FavState where
  ads := [exAd]
  favorites := []
  comparisons :=
    [(7, 101), (7, 102), (7, 103), (7, 104), (7, 105),
     (7, 106), (7, 107), (7, 108), (7, 109), (7, 110)]

/-- Witness for C6: the eleventh add for user 7 is rejected with a
conflict error. -/
theorem C6_comparison_cap_witness :
    add_to_comparison exCompFull 7 1 = .error .conflict :=
  (C6_comparison_cap exCompFull 7 1 (by decide)).1 rfl rfl (by decide)

/-- Claim C7: favorites add/remove are idempotent.  Starting from a state
with no `(uid, ad_id)` favorite row, a first add inserts exactly one row
and raises the ad's `favorites_count` by exactly 1; a second add is a
no-op success ("Ad already in favorites"); the matching remove deletes
the row and lowers the counter by 1 (never below 0, the decrement being
guarded); a second remove is again a no-op success. -/
theorem C7_favorites_idempotent (st st1 : FavState) (uid ad_id : Nat) (ad : Ad)
    (msg1 : String)
    (hfound : findAliveAd st.ads ad_id = some ad)
    (habsent : favRowCount st uid ad_id = 0)
    (h1 : add_to_favorites st uid ad_id = .ok (st1, msg1)) :
    favRowCount st1 uid ad_id = 1 ∧
    adFavCount st1 ad_id = adFavCount st ad_id + 1 ∧
    add_to_favorites st1 uid ad_id = .ok (st1, "Ad already in favorites") ∧
    ∀ st2 msg2, remove_from_favorites st1 uid ad_id = .ok (st2, msg2) →
      favRowCount st2 uid ad_id = 0 ∧
      adFavCount st2 ad_id = adFavCount st1 ad_id - 1 ∧
      remove_from_favorites st2 uid ad_id = .ok (st2, "Ad not in favorites") := by
  have hnotpr : ∀ b ∈ st.favorites, ¬((b.1 == uid && b.2 == ad_id) = true) :=
    List.countP_eq_zero.mp habsent
  have hrow : hasRow st.favorites uid ad_id = false := by
    rw [← Bool.not_eq_true, hasRow, List.any_eq_true]
    rintro ⟨x, hx, hpx⟩
    exact hnotpr x hx hpx
  unfold add_to_favorites at h1
  rw [hfound, hrow] at h1
  simp only [Bool.false_eq_true, if_false] at h1
  injection h1 with h1
  injection h1 with h1st h1msg
  -- the looked-up alive ad satisfies the bare-id predicate
  have hfound' : st.ads.find? (fun a => a.id == ad_id && a.deleted_at == none) =
      some ad := hfound
  have hmem : ad ∈ st.ads := List.mem_of_find?_eq_some hfound'
  have hq := List.find?_some hfound'
  have hpid : (ad.id == ad_id) = true := by
    simp only [Bool.and_eq_true] at hq
    exact hq.1
  obtain ⟨a₀, hfid⟩ : ∃ a₀, st.ads.find? (fun a => a.id == ad_id) = some a₀ := by
    rw [← Option.isSome_iff_exists]
    exact List.find?_isSome.mpr ⟨ad, hmem, hpid⟩
  have hpid₀ := List.find?_some hfid
  -- the increment map commutes with lookups by id and by id+deleted
  have hgid : ∀ a : Ad, (((fun a =>
      if a.id == ad_id then { a with favorites_count := a.favorites_count + 1 }
      else a) a).id == ad_id) = (a.id == ad_id) := by
    intro a
    by_cases h : (a.id == ad_id) = true <;> simp [h]
  have hgq : ∀ a : Ad, ((fun a => a.id == ad_id && a.deleted_at == none)
      ((fun a =>
        if a.id == ad_id then { a with favorites_count := a.favorites_count + 1 }
        else a) a)) = ((fun a => a.id == ad_id && a.deleted_at == none) a) := by
    intro a
    by_cases h : (a.id == ad_id) = true <;> simp [h]
  have hst1ads : st1.ads = st.ads.map (fun a =>
      if a.id == ad_id then { a with favorites_count := a.favorites_count + 1 }
      else a) := by rw [← h1st]
  have hst1fav : st1.favorites = st.favorites ++ [(uid, ad_id)] := by rw [← h1st]
  have hst1comp : st1.comparisons = st.comparisons := by rw [← h1st]
  have hfid1 : st1.ads.find? (fun a => a.id == ad_id) = some
      { a₀ with favorites_count := a₀.favorites_count + 1 } := by
    rw [hst1ads, find?_map_comm _ _ hgid, hfid, Option.map_some', if_pos hpid₀]
  have hrow1 : hasRow st1.favorites uid ad_id = true := by
    rw [hst1fav, hasRow, List.any_eq_true]
    exact ⟨(uid, ad_id), by simp⟩
  have hcount1 : favRowCount st1 uid ad_id = 1 := by
    rw [favRowCount, hst1fav, List.countP_append, ← favRowCount, habsent]
    simp [List.countP_cons]
  have hfav1 : adFavCount st1 ad_id = adFavCount st ad_id + 1 := by
    simp only [adFavCount, hfid, hfid1]
  refine ⟨hcount1, hfav1, ?_, ?_⟩
  · -- second add is a no-op success
    unfold add_to_favorites
    have hthis : findAliveAd st1.ads ad_id = some
        { ad with favorites_count := ad.favorites_count + 1 } := by
      unfold findAliveAd
      rw [hst1ads, find?_map_comm _ _ hgq, hfound', Option.map_some', if_pos hpid]
    simp [hthis, hrow1]
  · -- remove, then remove again
    intro st2 msg2 h2
    unfold remove_from_favorites at h2
    rw [hrow1] at h2
    simp only [Bool.not_true, Bool.false_eq_true, if_false] at h2
    injection h2 with h2
    injection h2 with h2st h2msg
    have hdid : ∀ a : Ad, (((fun a =>
        if a.id == ad_id && decide (0 < a.favorites_count) then
          { a with favorites_count := a.favorites_count - 1 }
        else a) a).id == ad_id) = (a.id == ad_id) := by
      intro a
      by_cases h : (a.id == ad_id && decide (0 < a.favorites_count)) = true <;> simp [h]
    have hst2fav : st2.favorites = st.favorites := by
      rw [← h2st, hst1fav]
      have herase : (st.favorites ++ [(uid, ad_id)]).eraseP
          (fun p => p.1 == uid && p.2 == ad_id) = st.favorites ++
            ([(uid, ad_id)].eraseP (fun p => p.1 == uid && p.2 == ad_id)) :=
        List.eraseP_append_right _ hnotpr
      rw [herase]
      simp [List.eraseP_cons_of_pos]
    have hst2ads : st2.ads = st1.ads.map (fun a =>
        if a.id == ad_id && decide (0 < a.favorites_count) then
          { a with favorites_count := a.favorites_count - 1 }
        else a) := by rw [← h2st]
    have hcount2 : favRowCount st2 uid ad_id = 0 := by
      rw [favRowCount, hst2fav, ← favRowCount, habsent]
    have hfid2 : st2.ads.find? (fun a => a.id == ad_id) = some
        { a₀ with favorites_count := a₀.favorites_count } := by
      rw [hst2ads, find?_map_comm _ _ hdid, hfid1, Option.map_some']
      have hc : ((({ a₀ with favorites_count := a₀.favorites_count + 1 } : Ad).id ==
          ad_id) &&
          decide (0 < ({ a₀ with favorites_count := a₀.favorites_count + 1 } : Ad).favorites_count)) =
          true := by
        simp [hpid₀]
      rw [if_pos hc]
      rfl
    have hfav2 : adFavCount st2 ad_id = adFavCount st1 ad_id - 1 := by
      simp only [adFavCount, hfid1, hfid2]
      omega
    refine ⟨hcount2, hfav2, ?_⟩
    -- second remove is a no-op success
    unfold remove_from_favorites
    have hrow2 : hasRow st2.favorites uid ad_id = false := by
      rw [hst2fav]
      exact hrow
    rw [hrow2]
    simp

/-- A state where user 7 has not yet favorited ad 1. -/
def exFavState : FavState where
  ads := [exAd]
  favorites := []
  comparisons := []

/-- `exFavState` after user 7 favorites ad 1. -/
def exFavStateAdded : FavState where
  ads := [{ exAd with favorites_count := 1 }]
  favorites := [(7, 1)]
  comparisons := []

/-- Witness for C7: a concrete first add leaves one row and a counter
of 1. -/
theorem C7_favorites_idempotent_witness :
    favRowCount exFavStateAdded 7 1 = 1 ∧
    adFavCount exFavStateAdded 1 = adFavCount exFavState 1 + 1 :=
  ⟨(C7_favorites_idempotent exFavState exFavStateAdded 7 1 exAd "Added to favorites"
      rfl rfl rfl).1,
   (C7_favorites_idempotent exFavState exFavStateAdded 7 1 exAd "Added to favorites"
      rfl rfl rfl).2.1⟩

/-- `PaymentProvider` enum (`app/models/billing.py`). -/
inductive PaymentProvider
  | stripe
  | yandex
  | sberbank
  | paypal
deriving DecidableEq, Repr

/-- `PaymentStatus` enum (`app/models/billing.py`). -/
inductive PaymentStatus
  | pending
  | completed
  | failed
  | refunded
  | cancelled
deriving DecidableEq, Repr

/-- `FeatureType` enum (`app/models/billing.py`). -/
inductive FeatureType
  | featured
  | top
  | urgent
deriving DecidableEq, Repr

/-- The columns of `payments` used by the verified code
(`app/models/billing.py`). -/
structure Payment where
  id : Nat
  user_id : Nat
  amount : Int
  currency : String
  provider : PaymentProvider
  provider_payment_url : Option String
  related_ad_id : Option Nat
  related_tariff_id : Option Nat
  status : PaymentStatus
  completed_at : Option Nat
deriving DecidableEq, Repr

/-- The columns of `tariffs` used by the verified code
(`app/models/billing.py`). -/
structure Tariff where
  id : Nat
  feature_type : FeatureType
  price : Int
  currency : String
  duration_days : Nat
deriving DecidableEq, Repr

/-- Exceptions the provider layer of `PaymentService` can raise. -/
inductive ProviderError
  | notImplemented (msg : String)
  | valueError (msg : String)
deriving DecidableEq, Repr

/-- `PaymentService._create_stripe_payment_url`: intentionally
unimplemented. -/
def create_stripe_payment_url (_payment : Payment) : Except ProviderError String :=
  .error (.notImplemented "Stripe integration not yet implemented")

/-- `PaymentService._create_yandex_payment_url`: intentionally
unimplemented. -/
def create_yandex_payment_url (_payment : Payment) : Except ProviderError String :=
  .error (.notImplemented "Yandex Kassa integration not yet implemented")

/-- `PaymentService._create_sberbank_payment_url`: intentionally
unimplemented. -/
def create_sberbank_payment_url (_payment : Payment) : Except ProviderError String :=
  .error (.notImplemented "Sberbank integration not yet implemented")

/-- `PaymentService.create_payment_url` (`app/services/payment_service.py`):
dispatch on the payment's provider; any provider outside the three
integrations raises `ValueError`. -/
def create_payment_url (payment : Payment) : Except ProviderError String :=
  match payment.provider with
  | .stripe => create_stripe_payment_url payment
  | .yandex => create_yandex_payment_url payment
  | .sberbank => create_sberbank_payment_url payment
  | .paypal => .error (.valueError "Unsupported payment provider")

/-- The local simulation URL the API substitutes on `NotImplementedError`
(`app/api/v1/billing.py`). -/
def simulatePaymentUrl (frontend_url : String) (payment_id : Nat) : String :=
  frontend_url ++ "/payment/simulate?payment_id=" ++ toString payment_id

/-- The provider-URL step of the `POST /billing/payments` handler
`create_payment` (`app/api/v1/billing.py`), acting on the freshly
created payment: try the provider, catch only `NotImplementedError` and
fall back to the simulation URL; any other exception propagates. -/
def billing_attach_payment_url (payment : Payment) (frontend_url : String) :
    Except ProviderError Payment :=
  match create_payment_url payment with
  | .ok url => .ok { payment with provider_payment_url := some url }
  | .error (.notImplemented _) =>
      .ok { payment with
        provider_payment_url := some (simulatePaymentUrl frontend_url payment.id) }
  | .error e => .error e

/-- Claim C4: for each of the Stripe/Yandex/Sberbank providers the
provider integration raises a not-implemented signal, and the API layer
catches it, stores the local simulation URL on the payment and returns
the payment successfully. -/
theorem C4_not_implemented_fallback (payment : Payment) (frontend_url : String)
    (hprov : payment.provider = PaymentProvider.stripe ∨
      payment.provider = PaymentProvider.yandex ∨
      payment.provider = PaymentProvider.sberbank) :
    (∃ msg, create_payment_url payment = .error (.notImplemented msg)) ∧
    billing_attach_payment_url payment frontend_url = .ok
      { payment with
        provider_payment_url := some (simulatePaymentUrl frontend_url payment.id) } := by
  rcases hprov with h | h | h
  · exact ⟨⟨"Stripe integration not yet implemented", by
      simp [create_payment_url, h, create_stripe_payment_url]⟩, by
      simp [billing_attach_payment_url, create_payment_url, h,
        create_stripe_payment_url]⟩
  · exact ⟨⟨"Yandex Kassa integration not yet implemented", by
      simp [create_payment_url, h, create_yandex_payment_url]⟩, by
      simp [billing_attach_payment_url, create_payment_url, h,
        create_yandex_payment_url]⟩
  · exact ⟨⟨"Sberbank integration not yet implemented", by
      simp [create_payment_url, h, create_sberbank_payment_url]⟩, by
      simp [billing_attach_payment_url, create_payment_url, h,
        create_sberbank_payment_url]⟩

/-- Example payment against the Stripe provider. -/
def exPayment : Payment where
  id := 42
  user_id := 7
  amount := 500
  currency := "RUB"
  provider := PaymentProvider.stripe
  provider_payment_url := none
  related_ad_id := some 1
  related_tariff_id := some 3
  status := PaymentStatus.pending
  completed_at := none

/-- Witness for C4: the Stripe payment gets the simulation URL. -/
theorem C4_not_implemented_fallback_witness :
    billing_attach_payment_url exPayment "http://localhost:3000" = .ok
      { exPayment with
        provider_payment_url := some (simulatePaymentUrl "http://localhost:3000" 42) } :=
  (C4_not_implemented_fallback exPayment "http://localhost:3000" (Or.inl rfl)).2

/-- The columns of `ad_boosts` used by the verified code
(`app/models/billing.py`). -/
structure AdBoost where
  ad_id : Option Nat
  tariff_id : Option Nat
  payment_id : Nat
  amount : Int
  currency : String
  is_active : Bool
  activated_at : Option Nat
  expires_at : Option Nat
deriving DecidableEq, Repr

/-- `AdBoost.activate` (`app/models/billing.py`): activates the boost and
sets `expires_at = activated_at + timedelta(days=self.tariff.duration_days)`;
the embedding receives the tariff row the ORM resolves through
`tariff_id`. -/
def AdBoost.activate (b : AdBoost) (tariff : Tariff) (now : Nat) : AdBoost :=
  { b with
    is_active := true
    activated_at := some now
    expires_at := some (now + tariff.duration_days) }

/-- `Payment.mark_completed` (`app/models/billing.py`). -/
def Payment.mark_completed (p : Payment) (now : Nat) : Payment :=
  { p with status := PaymentStatus.completed, completed_at := some now }

/-- `PaymentService.get_tariff`: `select(Tariff).where(Tariff.id == ...)`. -/
def get_tariff (tariffs : List Tariff) (tariff_id : Nat) : Option Tariff :=
  tariffs.find? (fun t => t.id == tariff_id)

/-- State touched by `PaymentService.confirm_payment`. -/
structure BillingState where
  payments : List Payment
  tariffs : List Tariff
  ads : List Ad
  boosts : List AdBoost
deriving DecidableEq, Repr

/-- `PaymentService.confirm_payment` (`app/services/payment_service.py`):
mark the payment completed, create and activate one AdBoost, and set the
ad's promotion flag for the tariff's feature type.  `none` models the
uncaught runtime error of `AdBoost.activate` dereferencing an absent
tariff relation.  Note the three branches on `feature_type`: featured
and top also store `boost.expires_at` in `featured_until`/`top_until`,
while the urgent branch sets only `is_urgent` (the `ads` table has no
`urgent_until` column). -/
def confirm_payment (st : BillingState) (payment_id now : Nat) :
    Option (BillingState × Bool) :=
  match st.payments.find? (fun p => p.id == payment_id) with
  | none => some (st, false)
  | some payment =>
    let payments1 := st.payments.map (fun p =>
      if p.id == payment_id then p.mark_completed now else p)
    match payment.related_tariff_id.bind (fun tid => get_tariff st.tariffs tid) with
    | none => none
    | some btariff =>
      let boost : AdBoost :=
        { ad_id := payment.related_ad_id
          tariff_id := payment.related_tariff_id
          payment_id := payment.id
          amount := payment.amount
          currency := payment.currency
          is_active := false
          activated_at := none
          expires_at := none }
      let boost := boost.activate btariff now
      let st1 := { st with payments := payments1, boosts := st.boosts ++ [boost] }
      match payment.related_ad_id with
      | none => some (st1, true)
      | some aid =>
        match st1.ads.find? (fun a => a.id == aid) with
        | none => some (st1, true)
        | some ad =>
          match payment.related_tariff_id with
          | none => some (st1, true)
          | some tid =>
            match get_tariff st.tariffs tid with
            | none => some (st1, true)
            | some tariff =>
              let ad1 :=
                match tariff.feature_type with
                | .featured =>
                    { ad with is_featured := true, featured_until := boost.expires_at }
                | .top =>
                    { ad with is_top := true, top_until := boost.expires_at }
                | .urgent =>
                    { ad with is_urgent := true }
              some ({ st1 with
                ads := st1.ads.map (fun a => if a.id == aid then ad1 else a) }, true)

/-- An ad with id 9 awaiting an urgent boost. -/
def exAdBoostTarget : Ad := { exAd with id := 9, user_id := 7 }

/-- An urgent tariff of 7 days. -/
def exUrgentTariff : Tariff where
  id := 3
  feature_type := FeatureType.urgent
  price := 500
  currency := "RUB"
  duration_days := 7

/-- A billing state holding the pending payment 42 for an urgent boost of
ad 9 against tariff 3. -/
def exBillingState : BillingState where
  payments := [{ exPayment with related_ad_id := some 9 }]
  tariffs := [exUrgentTariff]
  ads := [exAdBoostTarget]
  boosts := []

/-- The boost `confirm_payment` creates in the urgent scenario. -/
def exUrgentBoost : AdBoost where
  ad_id := some 9
  tariff_id := some 3
  payment_id := 42
  amount := 500
  currency := "RUB"
  is_active := true
  activated_at := some 5
  expires_at := some 12

/-- The state after confirming payment 42 at time 5. -/
def exBillingStateAfter : BillingState where
  payments := [({ exPayment with related_ad_id := some 9 }).mark_completed 5]
  tariffs := [exUrgentTariff]
  ads := [{ exAdBoostTarget with is_urgent := true }]
  boosts := [exUrgentBoost]

/-- Counterexample for claim C3: confirming an urgent-tariff payment
activates the boost with `expires_at = 12`, but the resulting ad differs
from the old one *only* in `is_urgent`; no `*_until` timestamp is set
(there is no `urgent_until` column, and `featured_until`/`top_until`
stay `none`), contradicting "the flag is set together with its `*_until`
timestamp". -/
theorem C3_counterexample :
    confirm_payment exBillingState 42 5 = some (exBillingStateAfter, true) ∧
    exBillingStateAfter.boosts = [exUrgentBoost] ∧
    exUrgentBoost.expires_at = some 12 ∧
    exBillingStateAfter.ads = [{ exAdBoostTarget with is_urgent := true }] ∧
    ({ exAdBoostTarget with is_urgent := true } : Ad).featured_until = none ∧
    ({ exAdBoostTarget with is_urgent := true } : Ad).top_until = none :=
  ⟨rfl, rfl, rfl, rfl, rfl, rfl⟩

/-- Claim C3 (amended): confirming an existing payment linked to an ad
and a tariff marks the payment `completed`, appends exactly one
activated AdBoost whose `expires_at` is `activated_at` (= now) plus
`tariff.duration_days`, and sets the ad's promotion flag for the
tariff's feature type — storing the expiry in `featured_until` resp.
`top_until` for featured/top, while for urgent only the `is_urgent`
flag is set (the ads table has no `urgent_until` column). -/
theorem C3_confirm_payment_boost (st st2 : BillingState) (payment : Payment)
    (tariff : Tariff) (ad : Ad) (payment_id now tid aid : Nat) (r : Bool)
    (hpay : st.payments.find? (fun p => p.id == payment_id) = some payment)
    (htid : payment.related_tariff_id = some tid)
    (htar : get_tariff st.tariffs tid = some tariff)
    (haid : payment.related_ad_id = some aid)
    (had : st.ads.find? (fun a => a.id == aid) = some ad)
    (hok : confirm_payment st payment_id now = some (st2, r)) :
    r = true ∧
    st2.payments.find? (fun p => p.id == payment_id) =
      some (payment.mark_completed now) ∧
    (∃ b, st2.boosts = st.boosts ++ [b] ∧
      b.is_active = true ∧ b.activated_at = some now ∧
      b.expires_at = some (now + tariff.duration_days)) ∧
    (tariff.feature_type = FeatureType.featured →
      st2.ads.find? (fun a => a.id == aid) = some
        { ad with
          is_featured := true
          featured_until := some (now + tariff.duration_days) }) ∧
    (tariff.feature_type = FeatureType.top →
      st2.ads.find? (fun a => a.id == aid) = some
        { ad with
          is_top := true
          top_until := some (now + tariff.duration_days) }) ∧
    (tariff.feature_type = FeatureType.urgent →
      st2.ads.find? (fun a => a.id == aid) = some { ad with is_urgent := true }) := by
  have hpid := List.find?_some hpay
  have haidt := List.find?_some had
  simp only [confirm_payment, hpay, htid, htar, haid, had, Option.some_bind,
    Option.some.injEq, Prod.mk.injEq] at hok
  obtain ⟨hst2, hr⟩ := hok
  refine ⟨hr.symm, ?_, ?_, ?_, ?_, ?_⟩
  · -- the payment row is completed
    have hgP : ∀ p : Payment, (((fun p =>
        if p.id == payment_id then p.mark_completed now else p) p).id ==
          payment_id) = (p.id == payment_id) := by
      intro p
      by_cases h : (p.id == payment_id) = true <;>
        simp [h, Payment.mark_completed]
    rw [← hst2]
    show (st.payments.map _).find? _ = _
    rw [find?_map_comm _ _ hgP, hpay, Option.map_some', if_pos hpid]
  · -- exactly one activated boost is appended
    refine ⟨AdBoost.activate
      { ad_id := some aid, tariff_id := some tid,
        payment_id := payment.id, amount := payment.amount,
        currency := payment.currency, is_active := false,
        activated_at := none, expires_at := none } tariff now, ?_, rfl, rfl, rfl⟩
    rw [← hst2]
  all_goals
    have hg : ∀ ad1 : Ad, ad1.id = ad.id → ∀ x : Ad,
        (((fun a => if a.id == aid then ad1 else a) x).id == aid) =
          (x.id == aid) := by
      intro ad1 h1 x
      show ((if (x.id == aid) = true then ad1 else x).id == aid) = (x.id == aid)
      by_cases h : (x.id == aid) = true
      · rw [if_pos h, h1, h]
        exact haidt
      · rw [if_neg h]
  · intro hft
    rw [← hst2, hft]
    show (st.ads.map (fun a => if a.id == aid then
        { ad with
          is_featured := true
          featured_until := some (now + tariff.duration_days) } else a)).find?
        (fun a => a.id == aid) = _
    rw [find?_map_comm _ _ (hg { ad with
        is_featured := true
        featured_until := some (now + tariff.duration_days) } rfl), had,
      Option.map_some', if_pos haidt]
  · intro hft
    rw [← hst2, hft]
    show (st.ads.map (fun a => if a.id == aid then
        { ad with
          is_top := true
          top_until := some (now + tariff.duration_days) } else a)).find?
        (fun a => a.id == aid) = _
    rw [find?_map_comm _ _ (hg { ad with
        is_top := true
        top_until := some (now + tariff.duration_days) } rfl), had,
      Option.map_some', if_pos haidt]
  · intro hft
    rw [← hst2, hft]
    show (st.ads.map (fun a => if a.id == aid then
        { ad with is_urgent := true } else a)).find?
        (fun a => a.id == aid) = _
    rw [find?_map_comm _ _ (hg { ad with is_urgent := true } rfl), had,
      Option.map_some', if_pos haidt]

/-- A featured tariff of 7 days. -/
def exFeaturedTariff : Tariff :=
  { exUrgentTariff with id := 4, feature_type := FeatureType.featured }

/-- The pending featured-boost payment for ad 9. -/
def exPaymentF : Payment :=
  { exPayment with related_ad_id := some 9, related_tariff_id := some 4 }

/-- A billing state holding `exPaymentF`. -/
def exBillingStateF : BillingState where
  payments := [exPaymentF]
  tariffs := [exFeaturedTariff]
  ads := [exAdBoostTarget]
  boosts := []

/-- The state after confirming `exPaymentF` at time 5. -/
def exBillingStateFAfter : BillingState where
  payments := [exPaymentF.mark_completed 5]
  tariffs := [exFeaturedTariff]
  ads := [{ exAdBoostTarget with is_featured := true, featured_until := some 12 }]
  boosts := [{ exUrgentBoost with tariff_id := some 4 }]

/-- Witness for the amended C3: confirming the featured payment marks
ad 9 featured until day 12 = 5 + 7. -/
theorem C3_confirm_payment_boost_witness :
    exBillingStateFAfter.ads.find? (fun a => a.id == 9) = some
      { exAdBoostTarget with
        is_featured := true
        featured_until := some (5 + exFeaturedTariff.duration_days) } :=
  (C3_confirm_payment_boost exBillingStateF exBillingStateFAfter exPaymentF
    exFeaturedTariff exAdBoostTarget 42 5 4 9 true
    rfl rfl rfl rfl rfl rfl).2.2.2.1 rfl

/-- State touched by the ad-detail handler: the `ads` table and the
`view_history` table, each history row a `(user_id, ad_id)` pair. -/
structure AdState where
  ads : List Ad
  view_history : List (Nat × Nat)
deriving DecidableEq, Repr

/-- `GET /ads/{ad_id}` handler `get_ad` (`app/api/v1/ads.py`): fetch the
non-deleted ad, hide non-active ads from everyone but the owner and
moderators, increment `views_count` unconditionally, and insert a
ViewHistory row only for a logged-in viewer who is not the owner. -/
def api_get_ad (st : AdState) (current_user : Option User) (ad_id : Nat) :
    Except ApiError AdState :=
  match findAliveAd st.ads ad_id with
  | none => .error .notFound
  | some ad =>
    let visible :=
      ad.status == AdStatus.active ||
        (match current_user with
         | none => false
         | some u => u.id == ad.user_id || u.is_moderator)
    if !visible then
      .error .notFound
    else
      let ads1 := st.ads.map (fun a =>
        if a.id == ad_id then { a with views_count := a.views_count + 1 } else a)
      let vh1 :=
        match current_user with
        | some u =>
            if u.id != ad.user_id then st.view_history ++ [(u.id, ad_id)]
            else st.view_history
        | none => st.view_history
      .ok { ads := ads1, view_history := vh1 }

/-- `views_count` of the alive ad with the given id; 0 when absent. -/
def adViews (st : AdState) (ad_id : Nat) : Nat :=
  match findAliveAd st.ads ad_id with
  | some a => a.views_count
  | none => 0

/-- Claim C10: every successful ad-detail fetch increments the ad's
`views_count` by exactly 1 — also for anonymous viewers and for the
owner — while a ViewHistory row is added exactly when the viewer is
logged in and is not the owner; hence `views_count` can exceed the
number of ViewHistory rows. -/
theorem C10_views_count (st st2 : AdState) (cu : Option User) (ad_id : Nat) (ad : Ad)
    (hfound : findAliveAd st.ads ad_id = some ad)
    (hok : api_get_ad st cu ad_id = .ok st2) :
    adViews st2 ad_id = adViews st ad_id + 1 ∧
    (cu = none → st2.view_history = st.view_history) ∧
    (∀ u, cu = some u → u.id = ad.user_id → st2.view_history = st.view_history) ∧
    (∀ u, cu = some u → u.id ≠ ad.user_id →
      st2.view_history = st.view_history ++ [(u.id, ad_id)]) := by
  have hfound' : st.ads.find? (fun a => a.id == ad_id && a.deleted_at == none) =
      some ad := hfound
  have hq := List.find?_some hfound'
  have hpid : (ad.id == ad_id) = true := by
    simp only [Bool.and_eq_true] at hq
    exact hq.1
  simp only [api_get_ad, hfound] at hok
  split at hok
  · exact absurd hok (by simp)
  · simp only [Except.ok.injEq] at hok
    have hgq : ∀ a : Ad, ((fun a => a.id == ad_id && a.deleted_at == none)
        ((fun a =>
          if a.id == ad_id then { a with views_count := a.views_count + 1 }
          else a) a)) = ((fun a => a.id == ad_id && a.deleted_at == none) a) := by
      intro a
      by_cases h : (a.id == ad_id) = true <;> simp [h]
    subst hok
    refine ⟨?_, ?_, ?_, ?_⟩
    · simp only [adViews, findAliveAd]
      rw [find?_map_comm _ _ hgq, hfound', Option.map_some', if_pos hpid]
    · intro hcu
      subst hcu
      rfl
    · intro u hcu hu
      subst hcu
      show (if u.id != ad.user_id then st.view_history ++ [(u.id, ad_id)]
          else st.view_history) = st.view_history
      simp [hu]
    · intro u hcu hu
      subst hcu
      show (if u.id != ad.user_id then st.view_history ++ [(u.id, ad_id)]
          else st.view_history) = st.view_history ++ [(u.id, ad_id)]
      simp [hu]

/-- A state with one active ad and no view history. -/
def exAdState : AdState where
  ads := [exAd]
  view_history := []

/-- `exAdState` after one anonymous detail fetch of ad 1. -/
def exAdStateViewed : AdState where
  ads := [{ exAd with views_count := 1 }]
  view_history := []

/-- Witness for C10: a concrete anonymous view raises `views_count` to 1
while view history stays empty, so `views_count` exceeds the number of
ViewHistory rows. -/
theorem C10_views_count_witness :
    adViews exAdStateViewed 1 = adViews exAdState 1 + 1 ∧
    exAdStateViewed.view_history = exAdState.view_history :=
  ⟨(C10_views_count exAdState exAdStateViewed none 1 exAd rfl rfl).1,
   (C10_views_count exAdState exAdStateViewed none 1 exAd rfl rfl).2.1 rfl⟩

/-- `settings.REFRESH_TOKEN_EXPIRE_DAYS` (`app/core/config.py`). -/
def REFRESH_TOKEN_EXPIRE_DAYS : Nat := 30

/-- A refresh JWT (`app/core/security.py`): subject (user id), token
type, expiry, and the random `jti` uniquely identifying the token; the
SHA-256 hash stored in the session row is modelled by the token itself
(hashing is injective for the purpose of these proofs). -/
structure RefreshToken where
  sub : Nat
  typ : String
  exp : Nat
  jti : Nat
deriving DecidableEq, Repr

/-- The columns of `user_sessions` used by the verified handlers
(`app/models/user.py`). -/
structure UserSession where
  id : Nat
  user_id : Nat
  refresh_token_hash : RefreshToken
  revoked : Bool
  revoked_at : Option Nat
  expires_at : Nat
deriving DecidableEq, Repr

/-- `UserSession.is_valid` property: false when revoked or past
`expires_at`. -/
def UserSession.is_valid (s : UserSession) (now : Nat) : Bool :=
  if s.revoked then false
  else if decide (s.expires_at < now) then false
  else true

/-- `UserSession.revoke`. -/
def UserSession.revoke (s : UserSession) (now : Nat) : UserSession :=
  { s with revoked := true, revoked_at := some now }

/-- State touched by the auth handlers: `users` and `user_sessions`
tables plus the id/randomness supplies for new rows and tokens. -/
structure AuthState where
  users : List User
  sessions : List UserSession
  next_session_id : Nat
  next_jti : Nat
deriving DecidableEq, Repr

/-- All stored session hashes use `jti` values below the supply — the
freshness a cryptographically random `jti` provides. -/
def AuthState.fresh_jti (st : AuthState) : Prop :=
  ∀ s ∈ st.sessions, s.refresh_token_hash.jti < st.next_jti

/-- `verify_token_type` + `decode_token` (`app/core/security.py`):
signature and expiry are checked by `jwt.decode`, then the `type` claim
must match. -/
def verify_token_type (tok : RefreshToken) (expected : String) (now : Nat) : Bool :=
  tok.typ == expected && decide (now ≤ tok.exp)

/-- `get_refresh_token_session` dependency (`app/api/deps.py`): cookie
presence, JWT validity, user lookup with active/blocked checks, session
lookup by user id and token hash, then the revoked/expired split of
`is_valid`. -/
def get_refresh_token_session (st : AuthState) (now : Nat)
    (refresh_token : Option RefreshToken) :
    Except ApiError (User × UserSession) :=
  match refresh_token with
  | none => .error .authentication
  | some tok =>
    if !verify_token_type tok "refresh" now then
      .error .tokenExpired
    else
      match st.users.find? (fun u => u.id == tok.sub && u.deleted_at == none) with
      | none => .error .authentication
      | some user =>
        if !user.is_active then
          .error .authentication
        else if user.is_blocked then
          .error .authentication
        else
          match st.sessions.find? (fun s =>
              s.user_id == user.id && s.refresh_token_hash == tok) with
          | none => .error .invalidToken
          | some session =>
            if !session.is_valid now then
              if session.revoked then .error .sessionRevoked
              else .error .tokenExpired
            else
              .ok (user, session)

/-- The body of the `POST /auth/refresh` handler `refresh_tokens`
(`app/api/v1/auth.py`) after the dependency succeeded: revoke the old
session row, mint a new refresh token (fresh `jti`, expiry
`now + REFRESH_TOKEN_EXPIRE_DAYS`) and insert the new session row.
The access token of the response does not touch this state and is not
modelled. -/
def rotate_session (st : AuthState) (now : Nat) (user : User)
    (old_session : UserSession) : AuthState × RefreshToken :=
  let sessions1 := st.sessions.map (fun s =>
    if s.user_id == old_session.user_id &&
        s.refresh_token_hash == old_session.refresh_token_hash then
      s.revoke now
    else s)
  let tok : RefreshToken :=
    { sub := user.id, typ := "refresh",
      exp := now + REFRESH_TOKEN_EXPIRE_DAYS, jti := st.next_jti }
  let new_session : UserSession :=
    { id := st.next_session_id, user_id := user.id, refresh_token_hash := tok,
      revoked := false, revoked_at := none, expires_at := tok.exp }
  ({ st with
      sessions := sessions1 ++ [new_session]
      next_session_id := st.next_session_id + 1
      next_jti := st.next_jti + 1 }, tok)

/-- `POST /auth/refresh` handler: the dependency, then the rotation. -/
def refresh_tokens (st : AuthState) (now : Nat)
    (refresh_token : Option RefreshToken) :
    Except ApiError (AuthState × RefreshToken) :=
  (get_refresh_token_session st now refresh_token).map
    (fun p => rotate_session st now p.1 p.2)

/-- A successful `find?` over the left part survives appending. -/
theorem find?_append_left {α : Type} (p : α → Bool) (l₁ l₂ : List α) (a : α)
    (h : l₁.find? p = some a) : (l₁ ++ l₂).find? p = some a := by
  induction l₁ with
  | nil => simp [List.find?] at h
  | cons x t ih =>
    cases hx : p x
    · rw [List.find?_cons_of_neg _ (by simp [hx])] at h
      rw [List.cons_append, List.find?_cons_of_neg _ (by simp [hx])]
      exact ih h
    · rw [List.find?_cons_of_pos _ (by simp [hx])] at h
      rw [List.cons_append, List.find?_cons_of_pos _ (by simp [hx])]
      exact h

/-- Inversion of a successful `get_refresh_token_session`. -/
theorem get_refresh_session_ok (st : AuthState) (now : Nat) (tok : RefreshToken)
    (user : User) (sess : UserSession)
    (h : get_refresh_token_session st now (some tok) = .ok (user, sess)) :
    verify_token_type tok "refresh" now = true ∧
    st.users.find? (fun u => u.id == tok.sub && u.deleted_at == none) = some user ∧
    user.is_active = true ∧ user.is_blocked = false ∧
    st.sessions.find? (fun s =>
      s.user_id == user.id && s.refresh_token_hash == tok) = some sess ∧
    sess.is_valid now = true := by
  simp only [get_refresh_token_session] at h
  split at h
  · simp at h
  next hv =>
    split at h
    · simp at h
    next user' hfu =>
      split at h
      · simp at h
      next hact =>
        split at h
        · simp at h
        next hblk =>
          split at h
          · simp at h
          next sess' hfs =>
            split at h
            · split at h <;> simp at h
            next hvalid =>
              simp only [Except.ok.injEq, Prod.mk.injEq] at h
              obtain ⟨hu, hs⟩ := h
              subst hu
              subst hs
              refine ⟨by simpa using hv, hfu, by simpa using hact,
                by simpa using hblk, hfs, by simpa using hvalid⟩

/-- Claim C1: a successful refresh against a valid, unrevoked session
revokes the presented session and inserts one brand-new session carrying
a distinct fresh token; presenting the old refresh token again then
fails with the session-revoked error (and an error returns no state, so
no session is created). -/
theorem C1_refresh_rotation (st st2 : AuthState) (now : Nat)
    (tok new_tok : RefreshToken)
    (hwf : st.fresh_jti)
    (hok : refresh_tokens st now (some tok) = .ok (st2, new_tok)) :
    new_tok ≠ tok ∧
    st2.sessions.length = st.sessions.length + 1 ∧
    (∃ s ∈ st2.sessions, s.refresh_token_hash = new_tok ∧ s.revoked = false) ∧
    refresh_tokens st2 now (some tok) = .error .sessionRevoked ∧
    st2.fresh_jti := by
  unfold refresh_tokens at hok
  cases hget : get_refresh_token_session st now (some tok) with
  | error e =>
    rw [hget] at hok
    simp [Except.map] at hok
  | ok p =>
    obtain ⟨user, old_session⟩ := p
    rw [hget] at hok
    simp only [Except.map, Except.ok.injEq] at hok
    obtain ⟨hv, hfu, hact, hblk, hfs, hvalid⟩ :=
      get_refresh_session_ok st now tok user old_session hget
    have hps := List.find?_some hfs
    have hmem : old_session ∈ st.sessions := List.mem_of_find?_eq_some hfs
    simp only [Bool.and_eq_true, beq_iff_eq] at hps
    have hsu : old_session.user_id = user.id := hps.1
    have hsh : old_session.refresh_token_hash = tok := hps.2
    simp only [rotate_session, Prod.mk.injEq] at hok
    obtain ⟨hst2, htok⟩ := hok
    have hjti : tok.jti < st.next_jti := by
      rw [← hsh]
      exact hwf old_session hmem
    have hne : new_tok ≠ tok := by
      intro he
      rw [← htok] at he
      have hj : st.next_jti = tok.jti := congrArg RefreshToken.jti he
      omega
    have hlen : st2.sessions.length = st.sessions.length + 1 := by
      rw [← hst2]
      simp
    have hmem2 : ∃ s ∈ st2.sessions,
        s.refresh_token_hash = new_tok ∧ s.revoked = false := by
      rw [← hst2, ← htok]
      exact ⟨_, List.mem_append_right _ (List.mem_singleton_self _), rfl, rfl⟩
    have husers : st2.users = st.users := by rw [← hst2]
    have hg : ∀ s : UserSession, ((fun s =>
        s.user_id == user.id && s.refresh_token_hash == tok)
        ((fun s => if s.user_id == old_session.user_id &&
            s.refresh_token_hash == old_session.refresh_token_hash then
          s.revoke now else s) s)) = ((fun s =>
        s.user_id == user.id && s.refresh_token_hash == tok) s) := by
      intro s
      show ((if (s.user_id == old_session.user_id &&
          s.refresh_token_hash == old_session.refresh_token_hash) = true then
            s.revoke now else s).user_id == user.id &&
          (if (s.user_id == old_session.user_id &&
          s.refresh_token_hash == old_session.refresh_token_hash) = true then
            s.revoke now else s).refresh_token_hash == tok) =
        (s.user_id == user.id && s.refresh_token_hash == tok)
      by_cases h : (s.user_id == old_session.user_id &&
          s.refresh_token_hash == old_session.refresh_token_hash) = true
      · rw [if_pos h]
        rfl
      · rw [if_neg h]
    have hfind2 : st2.sessions.find? (fun s =>
        s.user_id == user.id && s.refresh_token_hash == tok) =
        some (old_session.revoke now) := by
      rw [← hst2]
      apply find?_append_left
      rw [find?_map_comm _ _ hg, hfs, Option.map_some', if_pos (by simp)]
    have h2 : get_refresh_token_session st2 now (some tok) =
        .error .sessionRevoked := by
      simp [get_refresh_token_session, hv, husers, hfu, hact, hblk, hfind2,
        UserSession.is_valid, UserSession.revoke]
    have h4 : refresh_tokens st2 now (some tok) = .error .sessionRevoked := by
      simp [refresh_tokens, h2, Except.map]
    have h5 : st2.fresh_jti := by
      intro s hs
      rw [← hst2] at hs ⊢
      show s.refresh_token_hash.jti < st.next_jti + 1
      simp only [List.mem_append, List.mem_map, List.mem_singleton] at hs
      rcases hs with ⟨x, hx, hgx⟩ | rfl
      · have hlt := hwf x hx
        by_cases h : (x.user_id == old_session.user_id &&
            x.refresh_token_hash == old_session.refresh_token_hash) = true
        · rw [if_pos h] at hgx
          rw [← hgx]
          show x.refresh_token_hash.jti < st.next_jti + 1
          omega
        · rw [if_neg h] at hgx
          rw [← hgx]
          omega
      · show st.next_jti < st.next_jti + 1
        omega
    exact ⟨hne, hlen, hmem2, h4, h5⟩

/-- A live refresh token for user 7. -/
def exToken : RefreshToken where
  sub := 7
  typ := "refresh"
  exp := 30
  jti := 0

/-- The session storing `exToken`. -/
def exSession : UserSession where
  id := 1
  user_id := 7
  refresh_token_hash := exToken
  revoked := false
  revoked_at := none
  expires_at := 30

/-- Auth state before the refresh. -/
def exAuthState : AuthState where
  users := [exOwner]
  sessions := [exSession]
  next_session_id := 2
  next_jti := 1

/-- The rotated token the refresh mints. -/
def exTokenRotated : RefreshToken where
  sub := 7
  typ := "refresh"
  exp := 30
  jti := 1

/-- Auth state after the refresh: old session revoked, new session added. -/
def exAuthStateRotated : AuthState where
  users := [exOwner]
  sessions := [exSession.revoke 0,
    { id := 2, user_id := 7, refresh_token_hash := exTokenRotated,
      revoked := false, revoked_at := none, expires_at := 30 }]
  next_session_id := 3
  next_jti := 2

/-- Witness for C1: at the concrete state, replaying the old token after
the rotation is rejected with the session-revoked error. -/
theorem C1_refresh_rotation_witness :
    refresh_tokens exAuthStateRotated 0 (some exToken) =
      .error .sessionRevoked :=
  (C1_refresh_rotation exAuthState exAuthStateRotated 0 exToken exTokenRotated
    (by unfold AuthState.fresh_jti; decide) rfl).2.2.2.1

/-- `math.radians`: degrees to radians. -/
noncomputable def radians (x : ℝ) : ℝ := x * (Real.pi / 180)

/-- `haversine` (`app/api/v1/locations.py`): great-circle distance in
kilometres between two points given in decimal degrees, with
`a = sin²(Δlat/2) + cos(lat1)·cos(lat2)·sin²(Δlon/2)`,
`c = 2·asin(√a)` and earth radius 6371 km.  Python floats are modelled
by real numbers. -/
noncomputable def haversine (lon1 lat1 lon2 lat2 : ℝ) : ℝ :=
  let lon1r := radians lon1
  let lat1r := radians lat1
  let lon2r := radians lon2
  let lat2r := radians lat2
  let dlon := lon2r - lon1r
  let dlat := lat2r - lat1r
  let a := Real.sin (dlat / 2) ^ 2 +
    Real.cos lat1r * Real.cos lat2r * Real.sin (dlon / 2) ^ 2
  let c := 2 * Real.arcsin (Real.sqrt a)
  let r : ℝ := 6371
  c * r

/-- The columns of `cities` used by the nearby-cities handler
(`app/models/location.py`): coordinates are nullable. -/
structure City where
  id : Nat
  region_id : Nat
  name : String
  latitude : Option ℝ
  longitude : Option ℝ
  is_active : Bool
  is_major : Bool

/-- Sorting `(city, distance)` pairs by distance is total. -/
instance : IsTotal (City × ℝ) (fun a b => a.2 ≤ b.2) :=
  ⟨fun a b => le_total a.2 b.2⟩

/-- Sorting `(city, distance)` pairs by distance is transitive. -/
instance : IsTrans (City × ℝ) (fun a b => a.2 ≤ b.2) :=
  ⟨fun _ _ _ => le_trans⟩

/-- `GET /locations/nearby` handler `get_nearby_cities`
(`app/api/v1/locations.py`): select active cities with coordinates,
compute the haversine distance from the query point to each, keep those
within `radius_km`, sort ascending by distance and truncate to `limit`.
The embedding returns the `(city, distance)` pairs of the handler's
`nearby` list; the response projects the cities in this order. -/
noncomputable def get_nearby_cities (cities : List City)
    (latitude longitude : ℝ) (radius_km : ℝ) (lim : Nat) : List (City × ℝ) :=
  let all_cities := cities.filterMap (fun c =>
    match c.latitude, c.longitude with
    | some la, some lo => if c.is_active then some (c, la, lo) else none
    | _, _ => none)
  let nearby := all_cities.filterMap (fun x =>
    let d := haversine longitude latitude x.2.2 x.2.1
    if d ≤ radius_km then some (x.1, d) else none)
  let nearby2 := List.insertionSort (fun a b => a.2 ≤ b.2) nearby
  nearby2.take lim

/-- Claim C9: the haversine distance of a point to itself is 0 (the
formula itself is `haversine`'s definition), and the nearby-cities
result contains only cities whose haversine distance from the query
point is at most the radius, listed in ascending order of that
distance. -/
theorem C9_haversine_nearby :
    (∀ lon lat : ℝ, haversine lon lat lon lat = 0) ∧
    (∀ (cities : List City) (latitude longitude radius : ℝ) (lim : Nat),
      List.Sorted (fun x y : ℝ => x ≤ y)
        ((get_nearby_cities cities latitude longitude radius lim).map Prod.snd) ∧
      ∀ p ∈ get_nearby_cities cities latitude longitude radius lim,
        p.2 ≤ radius ∧
        ∃ la lo, p.1.latitude = some la ∧ p.1.longitude = some lo ∧
          p.1.is_active = true ∧ p.2 = haversine longitude latitude lo la) := by
  constructor
  · intro lon lat
    simp [haversine, sub_self, Real.sqrt_zero, Real.arcsin_zero]
  · intro cities latitude longitude radius lim
    constructor
    · have hs : List.Sorted (fun a b : City × ℝ => a.2 ≤ b.2)
          (List.insertionSort (fun a b => a.2 ≤ b.2)
            ((cities.filterMap (fun c =>
              match c.latitude, c.longitude with
              | some la, some lo => if c.is_active then some (c, la, lo) else none
              | _, _ => none)).filterMap (fun x =>
                let d := haversine longitude latitude x.2.2 x.2.1
                if d ≤ radius then some (x.1, d) else none))) :=
        List.sorted_insertionSort _ _
      exact List.pairwise_map.mpr
        (List.Pairwise.sublist (List.take_sublist _ _) hs)
    · intro p hp
      have hp1 : p ∈ List.insertionSort (fun a b : City × ℝ => a.2 ≤ b.2)
          ((cities.filterMap (fun c =>
            match c.latitude, c.longitude with
            | some la, some lo => if c.is_active then some (c, la, lo) else none
            | _, _ => none)).filterMap (fun x =>
              let d := haversine longitude latitude x.2.2 x.2.1
              if d ≤ radius then some (x.1, d) else none)) :=
        List.mem_of_mem_take hp
      have hp2 := (List.perm_insertionSort
        (fun a b : City × ℝ => a.2 ≤ b.2) _).mem_iff.mp hp1
      obtain ⟨x, hx, hfx⟩ := List.mem_filterMap.mp hp2
      obtain ⟨c, hc, hfc⟩ := List.mem_filterMap.mp hx
      by_cases hd : haversine longitude latitude x.2.2 x.2.1 ≤ radius
      · rw [if_pos hd] at hfx
        obtain hfx' := Option.some.inj hfx
        cases cla : c.latitude with
        | none => simp [cla] at hfc
        | some la =>
          cases clo : c.longitude with
          | none => simp [cla, clo] at hfc
          | some lo =>
            simp only [cla, clo] at hfc
            by_cases hact : c.is_active = true
            · rw [if_pos hact] at hfc
              obtain hfc' := Option.some.inj hfc
              subst hfc'
              rw [← hfx']
              exact ⟨hd, la, lo, cla, clo, hact, rfl⟩
            · rw [if_neg hact] at hfc
              simp at hfc
      · rw [if_neg hd] at hfx
        simp at hfx

/-- Witness for C9: the distance from Moscow's coordinates to themselves
is 0, and a concrete nearby-cities result is sorted by distance. -/
theorem C9_haversine_nearby_witness :
    haversine 37 55 37 55 = 0 ∧
    List.Sorted (fun x y : ℝ => x ≤ y)
      ((get_nearby_cities [] 55 37 50 10).map Prod.snd) :=
  ⟨C9_haversine_nearby.1 37 55, (C9_haversine_nearby.2 [] 55 37 50 10).1⟩
